import Mathlib

/-!
Shallow embedding of `src/main.js` of the AI-Chat-Microsoft-Bot-Framework
integration.  The file holds two variants of the script (a plain-DOM chat and a
DevExpress dxChat widget), separated in the source by a document marker.  DOM,
transport and widget effects are modelled as explicit state records; console
output is a list of log entries; the Direct Line transport is modelled by the
list of activities posted to it.
-/

namespace ChatApp

/-- A console log level (`console.log` / `console.warn` / `console.error`). -/
inductive LogLevel where
  | info
  | warn
  | err
  deriving DecidableEq

/-- One console entry: the level and the message text. -/
structure LogEntry where
  level : LogLevel
  message : String
  deriving DecidableEq

/-- A chat participant (the `user` and `assistant` objects of the script);
`id` is `none` where the script stores `null`. -/
structure Author where
  id : Option String
  name : String
  deriving DecidableEq

/-- The second variant's `user` object: `{ id: 'user', name: 'You' }`. -/
def user : Author := { id := some "user", name := "You" }

/-- The second variant's `assistant` object: `{ id: null, name: 'Virtual Assistant' }`. -/
def assistant : Author := { id := none, name := "Virtual Assistant" }

/-- The first variant's `user` object; its `id` is `Date.now()`, an unknown
value modelled as the parameter `uid`. -/
def userV1 (uid : Option String) : Author := { id := uid, name := "You" }

/-- A Direct Line activity as the code builds and inspects it: the `from`
author (field `sender` here, `from` being a Lean keyword), `type` and `text`. -/
structure Activity where
  sender : Author
  type : String
  text : String
  deriving DecidableEq

/-- First variant state: the chat container (list of appended divs, each a
`(textContent, className)` pair), the input field's value, the activities
posted to the transport, and the console. -/
structure V1State where
  chat : List (String × String)
  input : String
  posted : List Activity
  logs : List LogEntry
  deriving DecidableEq

/-- `appendMessage(text, className)`: creates a div with the class and text and
appends it to `chatContainer`. -/
def appendMessage (text className : String) (s : V1State) : V1State :=
  { s with chat := s.chat ++ [(text, className)] }

/-- The first variant's `activity$` subscriber inside `initChat`: append the
text as a bot message when the activity is a `message` not from the user. -/
def handleActivityV1 (uid : Option String) (a : Activity) (s : V1State) : V1State :=
  if a.type = "message" ∧ a.sender.id ≠ uid then
    appendMessage a.text "bot" s
  else
    s

/-- The first variant's `activity$` error callback: log, then append an error
line as a bot message. -/
def handleActivityErrorV1 (e : String) (s : V1State) : V1State :=
  appendMessage "Error receiving messages from the bot." "bot"
    { s with logs := s.logs ++ [⟨.err, "Error receiving activities: " ++ e⟩] }

/-- JS `String.prototype.trim`: the string with leading and trailing
whitespace stripped. -/
def jsTrim (s : String) : String :=
  String.mk (((s.data.dropWhile Char.isWhitespace).reverse.dropWhile
    Char.isWhitespace).reverse)

/-- `handleSendMessage(directLine)` of the first variant: trim the input; stop
if empty; otherwise append the user message, post the activity, clear input. -/
def handleSendMessage (uid : Option String) (s : V1State) : V1State :=
  let message := jsTrim s.input
  if message = "" then
    s
  else
    let s1 := appendMessage message "user" s
    let s2 := { s1 with
      posted := s1.posted ++
        [({ sender := userV1 uid, type := "message", text := message } : Activity)] }
    { s2 with input := "" }

/-- The first variant's `postActivity(...).subscribe` success callback. -/
def sendOkV1 (s : V1State) : V1State :=
  { s with logs := s.logs ++ [⟨.info, "Message sent successfully"⟩] }

/-- The first variant's `postActivity(...).subscribe` error callback: it only
logs the error. -/
def sendErrorV1 (e : String) (s : V1State) : V1State :=
  { s with logs := s.logs ++ [⟨.err, "Error sending message: " ++ e⟩] }

/-- The first variant's `connectionStatus$` subscriber: a leading
`console.log('Connection status:', status)` followed by the `switch` on the
status, whose `default` arm warns about an unknown status. -/
def handleStatusV1 (status : Int) : List LogEntry :=
  [⟨.info, "Connection status: " ++ toString status⟩] ++
  [if status = 0 then ⟨.warn, "DirectLine connection is uninitialized."⟩
   else if status = 1 then ⟨.info, "DirectLine is connecting..."⟩
   else if status = 2 then ⟨.info, "DirectLine connection is online!"⟩
   else if status = 3 then ⟨.err, "DirectLine token has expired."⟩
   else if status = 4 then
     ⟨.err, "DirectLine failed to connect. Please check your token or domain."⟩
   else if status = 5 then ⟨.warn, "DirectLine connection has ended."⟩
   else ⟨.warn, "Unknown DirectLine connection status: " ++ toString status⟩]

/-- An HTTP response as `fetchDirectLineToken` inspects it: `ok`, `status`,
and the `token` field of the parsed JSON body. -/
structure Response where
  ok : Bool
  status : Nat
  token : String

/-- `fetchDirectLineToken(secret)` of the first variant, as a function of the
response: the console entries it produces, paired with the returned token
(`Except.ok`) or the thrown error's message (`Except.error`).  A non-ok
response throws `Failed to fetch token: <status>`; the catch block logs that
error and rethrows it. -/
def fetchDirectLineToken (resp : Response) : List LogEntry × Except String String :=
  if !resp.ok then
    let msg := "Failed to fetch token: " ++ toString resp.status
    ([⟨.err, "Error fetching Direct Line token: " ++ msg⟩], .error msg)
  else
    ([], .ok resp.token)

/-- `fetchDirectLineToken` of the second variant: identical except that the
success path also logs `Token received successfully!`. -/
def fetchDirectLineTokenV2 (resp : Response) : List LogEntry × Except String String :=
  if !resp.ok then
    let msg := "Failed to fetch token: " ++ toString resp.status
    ([⟨.err, "Error fetching Direct Line token: " ++ msg⟩], .error msg)
  else
    ([⟨.info, "Token received successfully!"⟩], .ok resp.token)

/-- The observable steps of the first variant's initialization (`initChat`
followed by `main`'s wiring and catch block). -/
inductive InitStep where
  | fetchToken
  | mkDirectLine
  | subscribeActivity
  | subscribeStatus
  | wireClick
  | wireKeypress
  | logInitError
  | renderInitError
  deriving DecidableEq

/-- The DirectLine instance, modelled by the token it was constructed with. -/
structure DirectLineModel where
  token : String
  deriving DecidableEq

/-- `initChat()` of the first variant as its step trace plus result, given the
outcome `r` of the token fetch: on success it constructs the DirectLine with
the fetched token, subscribes `activity$`, then `connectionStatus$`; a fetch
failure propagates (the awaited rejection aborts `initChat`). -/
def initChatTrace (r : Except String String) :
    List InitStep × Except String DirectLineModel :=
  match r with
  | .error e => ([.fetchToken], .error e)
  | .ok tok =>
      ([.fetchToken, .mkDirectLine, .subscribeActivity, .subscribeStatus],
        Except.ok (DirectLineModel.mk tok))

/-- `main()` of the first variant: after `initChat` succeeds it wires the send
button's click handler, then the input field's keypress handler; on failure the
catch block logs and renders an initialization error. -/
def mainTrace (r : Except String String) : List InitStep :=
  let t := (initChatTrace r).1
  match (initChatTrace r).2 with
  | .ok _ => t ++ [.wireClick, .wireKeypress]
  | .error _ => t ++ [.logInitError, .renderInitError]

/-- A message in the second variant's backing data store (the `store` array
behind the CustomStore); `id` and `timestamp` come from `Date.now()` and are
elided. -/
structure Msg where
  author : Author
  text : String
  deriving DecidableEq

/-- Second variant state: the backing store, the widget's `typingUsers`
option, the disabled class on the widget element, the text area's focus, the
activities posted to the transport, and the console. -/
structure V2State where
  store : List Msg
  typingUsers : List Author
  disabled : Bool
  focused : Bool
  posted : List Activity
  logs : List LogEntry
  deriving DecidableEq

/-- `toggleDisabledState(disabled, instance, textArea)`: toggles the
`dx-chat-disabled` class to `disabled` and blurs (if disabling) or focuses
(if enabling) the text area. -/
def toggleDisabledState (disabled : Bool) (s : V2State) : V2State :=
  { s with disabled := disabled, focused := !disabled }

/-- `renderAssistantMessage(dataSource, text)`: pushes an insert of one
assistant-authored message to the store. -/
def renderAssistantMessage (text : String) (s : V2State) : V2State :=
  { s with store := s.store ++ [{ author := assistant, text := text }] }

/-- `postMessage(...)`: disable input, show the assistant as typing, then post
the activity built from the user and the message text. -/
def postMessage (text : String) (s : V2State) : V2State :=
  let s1 := toggleDisabledState true s
  let s2 := { s1 with typingUsers := [assistant] }
  { s2 with posted := s2.posted ++ [{ sender := user, type := "message", text := text }] }

/-- `handleMessage(activity)` inside `subscribeToChatActivities`: for a
`message` activity not from the user, clear `typingUsers`, render the text as
an assistant message, and re-enable input; otherwise do nothing. -/
def handleMessage (a : Activity) (s : V2State) : V2State :=
  if a.type = "message" ∧ a.sender.id ≠ user.id then
    toggleDisabledState false (renderAssistantMessage a.text { s with typingUsers := [] })
  else
    s

/-- `handleError` of `subscribeToChatActivities`: log, then render an error
line as an assistant message (input state untouched). -/
def handleActivityErrorV2 (e : String) (s : V2State) : V2State :=
  renderAssistantMessage "Error receiving messages from the assistant."
    { s with logs := s.logs ++ [⟨.err, "Error receiving activities: " ++ e⟩] }

/-- The second variant's `postActivity(...).subscribe` success callback. -/
def sendOkV2 (s : V2State) : V2State :=
  { s with logs := s.logs ++ [⟨.info, "Message sent successfully"⟩] }

/-- The second variant's `postActivity(...).subscribe` error callback: log the
error, clear `typingUsers`, render the error text as an assistant message, and
re-enable input.  The activity is not posted again. -/
def sendErrorV2 (e : String) (s : V2State) : V2State :=
  let s1 : V2State := { s with logs := s.logs ++ [⟨.err, "Error sending message: " ++ e⟩] }
  let s2 : V2State := { s1 with typingUsers := [] }
  toggleDisabledState false (renderAssistantMessage ("Error sending message: " ++ e) s2)

/-- `onMessageEntered(e)`: push the entered user message to the store, then
call `postMessage` with it. -/
def onMessageEntered (text : String) (s : V2State) : V2State :=
  postMessage text { s with store := s.store ++ [{ author := user, text := text }] }

/-- The `connectionStatusHandlers` object of the second variant: a lookup
giving a handler only for statuses 0 through 5. -/
def connectionStatusHandlers (status : Int) : Option LogEntry :=
  if status = 0 then some ⟨.warn, "DirectLine connection is uninitialized."⟩
  else if status = 1 then some ⟨.info, "DirectLine is connecting..."⟩
  else if status = 2 then some ⟨.info, "DirectLine connection is online!"⟩
  else if status = 3 then some ⟨.err, "DirectLine token has expired."⟩
  else if status = 4 then
    some ⟨.err, "DirectLine failed to connect. Please check your token or domain."⟩
  else if status = 5 then some ⟨.warn, "DirectLine connection has ended."⟩
  else none

/-- `handleConnectionStatus(status)`: look the handler up and call it; when the
lookup yields `undefined`, the call `handler()` throws a TypeError. -/
def handleConnectionStatus (status : Int) : Except String LogEntry :=
  match connectionStatusHandlers status with
  | some entry => .ok entry
  | none => .error "TypeError: handler is not a function"

/-- External events driving the second variant after initialization. -/
inductive Ev where
  | messageEntered (text : String)
  | activity (a : Activity)
  | activityError (e : String)
  | sendOk
  | sendError (e : String)
  | connStatus (status : Int)

/-- One event step of the second variant.  A connection status without a
handler throws before any effect, leaving the state unchanged. -/
def stepV2 (s : V2State) : Ev → V2State
  | .messageEntered text => onMessageEntered text s
  | .activity a => handleMessage a s
  | .activityError e => handleActivityErrorV2 e s
  | .sendOk => sendOkV2 s
  | .sendError e => sendErrorV2 e s
  | .connStatus st =>
      match connectionStatusHandlers st with
      | some entry => { s with logs := s.logs ++ [entry] }
      | none => s

/-- The `insert` of `createCustomStore(store)`: `store.push(message)` (the
surrounding `setTimeout`/Promise only defers the push). -/
def customStoreInsert (store : List Msg) (m : Msg) : List Msg :=
  store ++ [m]

/-- The `load` of `createCustomStore(store)`: resolves with the copy
`[...store]`, whose elements are those of `store`. -/
def customStoreLoad (store : List Msg) : List Msg :=
  store

/-- The class `[a-zA-Z]` of EMAIL_REGEX. -/
def isEmailLetter (c : Char) : Bool :=
  ('a' ≤ c && c ≤ 'z') || ('A' ≤ c && c ≤ 'Z')

/-- The local-part class `[a-zA-Z0-9._%+-]` of EMAIL_REGEX. -/
def isEmailLocalChar (c : Char) : Bool :=
  isEmailLetter c || c.isDigit || c == '.' || c == '_' || c == '%' || c == '+' || c == '-'

/-- The domain class `[a-zA-Z0-9.-]` of EMAIL_REGEX. -/
def isEmailDomainChar (c : Char) : Bool :=
  isEmailLetter c || c.isDigit || c == '.' || c == '-'

/-- Backtracking of the greedy `[a-zA-Z0-9.-]+` against the following
`\.[a-zA-Z]{2,}` of EMAIL_REGEX: over the maximal run `dom` of domain
characters, find the largest index (trying `n` down to `1`, as the engine
shortens the greedy run one character at a time) holding a dot followed by at
least two letters; the result is that index and the greedy letter run after
the dot. -/
def trySplit (dom : List Char) : Nat → Option (Nat × List Char)
  | 0 => none
  | k + 1 =>
      if dom.get? (k + 1) = some '.' then
        let tld := (dom.drop (k + 2)).takeWhile isEmailLetter
        if 2 ≤ tld.length then some (k + 1, tld) else trySplit dom k
      else trySplit dom k

/-- One attempt of EMAIL_REGEX at the start of `l`, with the JS engine's
greedy-backtracking semantics: `[a-zA-Z0-9._%+-]+` takes the maximal local
run (no shorter run can be followed by `@`, the classes being disjoint), then
`@`, then the domain run is split by `trySplit`.  Returns the matched text and
the total number of characters consumed. -/
def matchEmailAt (l : List Char) : Option (List Char × Nat) :=
  let localPart := l.takeWhile isEmailLocalChar
  if localPart.isEmpty then none
  else
    match l.drop localPart.length with
    | '@' :: rest =>
        let dom := rest.takeWhile isEmailDomainChar
        match trySplit dom (dom.length - 1) with
        | some (k, tld) =>
            some (localPart ++ '@' :: (dom.take k ++ '.' :: tld),
              localPart.length + 1 + k + 1 + tld.length)
        | none => none
    | _ => none

/-- The replacement callback of `emailToLink`: an email becomes
`<a href="mailto:email">email</a>`. -/
def anchorOf (email : List Char) : List Char :=
  "<a href=\"mailto:".data ++ email ++ "\">".data ++ email ++ "</a>".data

/-- The scan of `string.replace(EMAIL_REGEX, ...)` with the global flag,
fuel-indexed for structural recursion (each step consumes at least one
character, so `l.length` fuel always suffices): leftmost matches are replaced
by anchors, non-matching characters are copied, and scanning resumes after
each (non-empty) match. -/
def emailScanFuel : Nat → List Char → List Char
  | _, [] => []
  | 0, _ :: _ => []
  | fuel + 1, c :: rest =>
      match matchEmailAt (c :: rest) with
      | some (m, n) => anchorOf m ++ emailScanFuel fuel (rest.drop (n - 1))
      | none => c :: emailScanFuel fuel rest

/-- The scan of `string.replace(EMAIL_REGEX, ...)`, with adequate fuel. -/
def emailScan (l : List Char) : List Char :=
  emailScanFuel l.length l

/-- `emailToLink(string)`: `string.replace(EMAIL_REGEX, email => anchor)`. -/
def emailToLink (s : String) : String :=
  String.mk (emailScan s.data)

/-- `convertToHtml(value)`: run the markdown processor (an external
collaborator, passed in as `md`), then `emailToLink` on its output. -/
def convertToHtml (md : String → String) (v : String) : String :=
  emailToLink (md v)

/-! Helper lemmas about the email scan. -/

theorem matchEmailAt_nil : matchEmailAt ([] : List Char) = none := rfl

theorem emailScanFuel_eq (f1 : Nat) :
    ∀ (f2 : Nat) (l : List Char), l.length ≤ f1 → l.length ≤ f2 →
      emailScanFuel f1 l = emailScanFuel f2 l := by
  induction f1 with
  | zero =>
      intro f2 l h1 _
      cases l with
      | nil => cases f2 <;> rfl
      | cons c rest => simp at h1
  | succ f ih =>
      intro f2 l h1 h2
      cases l with
      | nil => cases f2 <;> rfl
      | cons c rest =>
          cases f2 with
          | zero => simp at h2
          | succ f2' =>
              simp only [List.length_cons, Nat.succ_le_succ_iff] at h1 h2
              simp only [emailScanFuel]
              cases hm : matchEmailAt (c :: rest) with
              | some p =>
                  obtain ⟨m, n⟩ := p
                  have hd : (rest.drop (n - 1)).length ≤ rest.length := by
                    simp [List.length_drop]
                  exact congrArg (anchorOf m ++ ·)
                    (ih f2' (rest.drop (n - 1)) (le_trans hd h1) (le_trans hd h2))
              | none =>
                  exact congrArg (c :: ·) (ih f2' rest h1 h2)

theorem emailScan_nil : emailScan [] = [] := rfl

theorem emailScan_cons_match (c : Char) (l m : List Char) (n : Nat)
    (h : matchEmailAt (c :: l) = some (m, n)) :
    emailScan (c :: l) = anchorOf m ++ emailScan (l.drop (n - 1)) := by
  unfold emailScan
  simp only [List.length_cons, emailScanFuel, h]
  exact congrArg (anchorOf m ++ ·)
    (emailScanFuel_eq l.length _ _ (by simp [List.length_drop]) le_rfl)

theorem emailScan_cons_none (c : Char) (l : List Char)
    (h : matchEmailAt (c :: l) = none) :
    emailScan (c :: l) = c :: emailScan l := by
  unfold emailScan
  simp only [List.length_cons, emailScanFuel, h]

theorem emailScan_id (l : List Char) (h : ∀ i, matchEmailAt (l.drop i) = none) :
    emailScan l = l := by
  induction l with
  | nil => exact emailScan_nil
  | cons c t ih =>
      have h0 : matchEmailAt (c :: t) = none := by simpa using h 0
      rw [emailScan_cons_none c t h0]
      exact congrArg (c :: ·) (ih fun i => by simpa using h (i + 1))

/-! The claims, in the order of the claims list. -/

/-- C1: each variant's activity subscriber renders the activity's text exactly
when the activity's type is `message` and its sender's id differs from the
local user's id (`appendMessage` as a bot line in the first variant;
`renderAssistantMessage` with `typingUsers` cleared and input re-enabled in
the second); any other activity leaves the state, and in particular the
chat's backing data store, unchanged. -/
theorem claim_C1 (uid : Option String) (a : Activity) (s1 : V1State) (s2 : V2State) :
    (a.type = "message" ∧ a.sender.id ≠ uid →
      handleActivityV1 uid a s1 = appendMessage a.text "bot" s1 ∧
      (handleActivityV1 uid a s1).chat = s1.chat ++ [(a.text, "bot")]) ∧
    (¬ (a.type = "message" ∧ a.sender.id ≠ uid) →
      handleActivityV1 uid a s1 = s1) ∧
    (a.type = "message" ∧ a.sender.id ≠ user.id →
      (handleMessage a s2).store = s2.store ++ [{ author := assistant, text := a.text }] ∧
      (handleMessage a s2).typingUsers = [] ∧
      (handleMessage a s2).disabled = false ∧
      (handleMessage a s2).focused = true) ∧
    (¬ (a.type = "message" ∧ a.sender.id ≠ user.id) →
      handleMessage a s2 = s2) := by
  refine ⟨fun h => ?_, fun h => ?_, fun h => ?_, fun h => ?_⟩
  · unfold handleActivityV1
    rw [if_pos h]
    exact ⟨rfl, rfl⟩
  · unfold handleActivityV1
    rw [if_neg h]
  · unfold handleMessage
    rw [if_pos h]
    exact ⟨rfl, rfl, rfl, rfl⟩
  · unfold handleMessage
    rw [if_neg h]

/-- Witness for C1 at a bot activity and at a user-echo activity. -/
theorem claim_C1_witness :
    handleActivityV1 (some "u") ⟨⟨some "bot1", "Bot"⟩, "message", "hi"⟩
        ⟨[], "", [], []⟩ = appendMessage "hi" "bot" ⟨[], "", [], []⟩ ∧
    handleMessage ⟨user, "message", "hi"⟩ ⟨[], [], false, true, [], []⟩ =
      ⟨[], [], false, true, [], []⟩ := by
  exact ⟨((claim_C1 (some "u") ⟨⟨some "bot1", "Bot"⟩, "message", "hi"⟩
      ⟨[], "", [], []⟩ ⟨[], [], false, true, [], []⟩).1 (by decide)).1,
    (claim_C1 (some "u") ⟨user, "message", "hi"⟩
      ⟨[], "", [], []⟩ ⟨[], [], false, true, [], []⟩).2.2.2 (by decide)⟩

/-- C2: `fetchDirectLineToken` returns the body's `token` field when the
response is ok; on a non-ok response it throws an error whose message contains
the HTTP status, logging the error and rethrowing it, and no token is
returned. -/
theorem claim_C2 (resp : Response) :
    (resp.ok = true →
      fetchDirectLineToken resp = ([], .ok resp.token) ∧
      fetchDirectLineTokenV2 resp =
        ([⟨.info, "Token received successfully!"⟩], .ok resp.token)) ∧
    (resp.ok = false →
      (fetchDirectLineToken resp).2 =
        .error ("Failed to fetch token: " ++ toString resp.status) ∧
      (fetchDirectLineTokenV2 resp).2 =
        .error ("Failed to fetch token: " ++ toString resp.status) ∧
      (∃ pre, "Failed to fetch token: " ++ toString resp.status =
        pre ++ toString resp.status) ∧
      (fetchDirectLineToken resp).1 =
        [⟨.err, "Error fetching Direct Line token: " ++
          ("Failed to fetch token: " ++ toString resp.status)⟩]) := by
  constructor
  · intro h
    constructor <;> simp [fetchDirectLineToken, fetchDirectLineTokenV2, h]
  · intro h
    refine ⟨?_, ?_, ⟨"Failed to fetch token: ", rfl⟩, ?_⟩ <;>
      simp [fetchDirectLineToken, fetchDirectLineTokenV2, h]

/-- Witness for C2 at an ok and at a failing response. -/
theorem claim_C2_witness :
    fetchDirectLineToken ⟨true, 200, "tok"⟩ = ([], .ok "tok") ∧
    (fetchDirectLineToken ⟨false, 401, "x"⟩).2 =
      .error ("Failed to fetch token: " ++ toString (401 : Nat)) := by
  exact ⟨((claim_C2 ⟨true, 200, "tok"⟩).1 rfl).1,
    ((claim_C2 ⟨false, 401, "x"⟩).2 rfl).1⟩

/-- C3: in the second variant the disabled state is set (class added, text
area blurred) when a user message is posted, and is cleared (class removed,
text area focused) exactly by an assistant message on the activity stream or
by a send error; every other event leaves the disabled state unchanged. -/
theorem claim_C3 (s : V2State) :
    (∀ t, (stepV2 s (.messageEntered t)).disabled = true ∧
      (stepV2 s (.messageEntered t)).focused = false) ∧
    (∀ a, a.type = "message" ∧ a.sender.id ≠ user.id →
      (stepV2 s (.activity a)).disabled = false ∧
      (stepV2 s (.activity a)).focused = true) ∧
    (∀ a, ¬ (a.type = "message" ∧ a.sender.id ≠ user.id) →
      (stepV2 s (.activity a)).disabled = s.disabled) ∧
    (∀ e, (stepV2 s (.sendError e)).disabled = false ∧
      (stepV2 s (.sendError e)).focused = true) ∧
    (stepV2 s .sendOk).disabled = s.disabled ∧
    (∀ e, (stepV2 s (.activityError e)).disabled = s.disabled) ∧
    (∀ st, (stepV2 s (.connStatus st)).disabled = s.disabled) := by
  refine ⟨fun t => ⟨rfl, rfl⟩, fun a h => ?_, fun a h => ?_, fun e => ⟨rfl, rfl⟩,
    rfl, fun e => rfl, fun st => ?_⟩
  · show (handleMessage a s).disabled = false ∧ (handleMessage a s).focused = true
    unfold handleMessage
    rw [if_pos h]
    exact ⟨rfl, rfl⟩
  · show (handleMessage a s).disabled = s.disabled
    unfold handleMessage
    rw [if_neg h]
  · cases hc : connectionStatusHandlers st <;> simp [stepV2, hc]

/-- Witness for C3 at an assistant reply and at a user submission. -/
theorem claim_C3_witness :
    (stepV2 ⟨[], [], true, false, [], []⟩
      (.activity ⟨⟨some "bot1", "Bot"⟩, "message", "ok"⟩)).disabled = false ∧
    (stepV2 ⟨[], [], false, true, [], []⟩ (.messageEntered "hi")).disabled = true := by
  exact ⟨((claim_C3 ⟨[], [], true, false, [], []⟩).2.1
      ⟨⟨some "bot1", "Bot"⟩, "message", "ok"⟩ (by decide)).1,
    ((claim_C3 ⟨[], [], false, true, [], []⟩).1 "hi").1⟩

/-- C4: an accepted user message produces exactly one postActivity call, whose
activity has the local user as its `from`, type `message`, and the submitted
text (the trimmed input in the first variant, the entered message text in the
second). -/
theorem claim_C4 (uid : Option String) (s1 : V1State) (s2 : V2State) (t : String) :
    (jsTrim s1.input ≠ "" →
      (handleSendMessage uid s1).posted = s1.posted ++
        [{ sender := userV1 uid, type := "message", text := jsTrim s1.input }]) ∧
    (stepV2 s2 (.messageEntered t)).posted = s2.posted ++
      [{ sender := user, type := "message", text := t }] := by
  constructor
  · intro h
    simp [handleSendMessage, appendMessage, h]
  · rfl

/-- Witness for C4 at a concrete non-empty input. -/
theorem claim_C4_witness :
    (handleSendMessage (some "u") ⟨[], "hi", [], []⟩).posted = [] ++
      [{ sender := userV1 (some "u"), type := "message",
         text := jsTrim "hi" }] := by
  exact (claim_C4 (some "u") ⟨[], "hi", [], []⟩ ⟨[], [], false, true, [], []⟩ "x").1
    (by decide)

/-- C5: first-variant initialization order: the token is fetched before the
DirectLine is constructed with that token; `activity$` and
`connectionStatus$` are subscribed before the click and Enter-keypress
handlers are wired; and on a failed fetch no DirectLine is constructed and
nothing is subscribed or wired. -/
theorem claim_C5 (r : Except String String) :
    (∀ tok, r = .ok tok →
      mainTrace r = [.fetchToken, .mkDirectLine, .subscribeActivity, .subscribeStatus,
        .wireClick, .wireKeypress] ∧
      (initChatTrace r).2 = .ok ⟨tok⟩) ∧
    (∀ e, r = .error e →
      mainTrace r = [.fetchToken, .logInitError, .renderInitError] ∧
      InitStep.mkDirectLine ∉ mainTrace r ∧
      InitStep.subscribeActivity ∉ mainTrace r ∧
      InitStep.subscribeStatus ∉ mainTrace r ∧
      InitStep.wireClick ∉ mainTrace r ∧
      InitStep.wireKeypress ∉ mainTrace r) := by
  constructor
  · rintro tok rfl
    exact ⟨rfl, rfl⟩
  · rintro e rfl
    refine ⟨rfl, ?_, ?_, ?_, ?_, ?_⟩ <;> simp [mainTrace, initChatTrace]

/-- Witness for C5 at a successful and at a failed token fetch. -/
theorem claim_C5_witness :
    mainTrace (.ok "tok") = [.fetchToken, .mkDirectLine, .subscribeActivity,
      .subscribeStatus, .wireClick, .wireKeypress] ∧
    mainTrace (.error "boom") = [.fetchToken, .logInitError, .renderInitError] := by
  exact ⟨((claim_C5 (.ok "tok")).1 "tok" rfl).1,
    ((claim_C5 (.error "boom")).2 "boom" rfl).1⟩

/-- C6: a send error triggers no retry: the list of posted activities is
unchanged in both variants; the first variant's error callback only logs, and
the second variant's logs, renders exactly one error message into the store,
clears the typing indicator, and re-enables input. -/
theorem claim_C6 (s1 : V1State) (s2 : V2State) (e : String) :
    (sendErrorV1 e s1).posted = s1.posted ∧
    sendErrorV1 e s1 =
      { s1 with logs := s1.logs ++ [⟨.err, "Error sending message: " ++ e⟩] } ∧
    (stepV2 s2 (.sendError e)).posted = s2.posted ∧
    (stepV2 s2 (.sendError e)).store =
      s2.store ++ [{ author := assistant, text := "Error sending message: " ++ e }] ∧
    (stepV2 s2 (.sendError e)).typingUsers = [] ∧
    (stepV2 s2 (.sendError e)).disabled = false ∧
    (stepV2 s2 (.sendError e)).focused = true ∧
    (stepV2 s2 (.sendError e)).logs =
      s2.logs ++ [⟨.err, "Error sending message: " ++ e⟩] :=
  ⟨rfl, rfl, rfl, rfl, rfl, rfl, rfl, rfl⟩

/-- C7: `convertToHtml` is the markdown processor's output with `emailToLink`
applied last; `emailToLink` replaces each leftmost EMAIL_REGEX match by the
anchor `<a href="mailto:email">email</a>`, copies every non-matching
character unchanged, and is the identity on input with no email occurrence. -/
theorem claim_C7 (md : String → String) (v : String) :
    convertToHtml md v = emailToLink (md v) ∧
    (∀ s : String, (∀ i < s.data.length, matchEmailAt (s.data.drop i) = none) →
      emailToLink s = s) ∧
    (∀ (c : Char) (l m : List Char) (n : Nat), matchEmailAt (c :: l) = some (m, n) →
      emailScan (c :: l) = anchorOf m ++ emailScan (l.drop (n - 1))) ∧
    (∀ (c : Char) (l : List Char), matchEmailAt (c :: l) = none →
      emailScan (c :: l) = c :: emailScan l) := by
  refine ⟨rfl, ?_, emailScan_cons_match, emailScan_cons_none⟩
  intro s h
  have hall : ∀ i, matchEmailAt (s.data.drop i) = none := by
    intro i
    by_cases hi : i < s.data.length
    · exact h i hi
    · rw [List.drop_eq_nil_of_le (by omega)]
      exact matchEmailAt_nil
  unfold emailToLink
  rw [emailScan_id s.data hall]

/-- Witness for C7: identity on text without emails, replacement on one with. -/
theorem claim_C7_witness :
    convertToHtml (fun s => s) "no emails here" = emailToLink "no emails here" ∧
    emailToLink "no emails here" = "no emails here" ∧
    emailToLink "write to ab@cd.org now" =
      "write to <a href=\"mailto:ab@cd.org\">ab@cd.org</a> now" := by
  refine ⟨(claim_C7 (fun s => s) "no emails here").1,
    (claim_C7 (fun s => s) "no emails here").2.1 "no emails here" (by decide), ?_⟩
  decide

/-- C8: the second variant's `handleConnectionStatus` is defined only on the
six statuses 0–5, each yielding one log at the documented level; outside that
range the lookup is undefined and the call throws, while the first variant's
switch falls to a default warning and never throws. -/
theorem claim_C8 (st : Int) :
    handleConnectionStatus 0 = .ok ⟨.warn, "DirectLine connection is uninitialized."⟩ ∧
    handleConnectionStatus 1 = .ok ⟨.info, "DirectLine is connecting..."⟩ ∧
    handleConnectionStatus 2 = .ok ⟨.info, "DirectLine connection is online!"⟩ ∧
    handleConnectionStatus 3 = .ok ⟨.err, "DirectLine token has expired."⟩ ∧
    handleConnectionStatus 4 =
      .ok ⟨.err, "DirectLine failed to connect. Please check your token or domain."⟩ ∧
    handleConnectionStatus 5 = .ok ⟨.warn, "DirectLine connection has ended."⟩ ∧
    (st < 0 ∨ 5 < st →
      connectionStatusHandlers st = none ∧
      handleConnectionStatus st = .error "TypeError: handler is not a function") ∧
    (st < 0 ∨ 5 < st →
      handleStatusV1 st =
        [⟨.info, "Connection status: " ++ toString st⟩,
         ⟨.warn, "Unknown DirectLine connection status: " ++ toString st⟩]) := by
  have hnone : st < 0 ∨ 5 < st → connectionStatusHandlers st = none := by
    intro h
    have h0 : ¬ st = 0 := by omega
    have h1 : ¬ st = 1 := by omega
    have h2 : ¬ st = 2 := by omega
    have h3 : ¬ st = 3 := by omega
    have h4 : ¬ st = 4 := by omega
    have h5 : ¬ st = 5 := by omega
    simp [connectionStatusHandlers, h0, h1, h2, h3, h4, h5]
  refine ⟨rfl, rfl, rfl, rfl, rfl, rfl, fun h => ⟨hnone h, ?_⟩, fun h => ?_⟩
  · unfold handleConnectionStatus
    rw [hnone h]
  · have h0 : ¬ st = 0 := by omega
    have h1 : ¬ st = 1 := by omega
    have h2 : ¬ st = 2 := by omega
    have h3 : ¬ st = 3 := by omega
    have h4 : ¬ st = 4 := by omega
    have h5 : ¬ st = 5 := by omega
    simp [handleStatusV1, h0, h1, h2, h3, h4, h5]

/-- Witness for C8 at the out-of-range status 6. -/
theorem claim_C8_witness :
    handleConnectionStatus 6 = .error "TypeError: handler is not a function" ∧
    handleStatusV1 6 =
      [⟨.info, "Connection status: " ++ toString (6 : Int)⟩,
       ⟨.warn, "Unknown DirectLine connection status: " ++ toString (6 : Int)⟩] := by
  exact ⟨((claim_C8 6).2.2.2.2.2.2.1 (by decide)).2,
    (claim_C8 6).2.2.2.2.2.2.2 (by decide)⟩

/-- C9: in the first variant an input that is empty after trimming makes
`handleSendMessage` a no-op — the state, and in particular the input field,
is unchanged and nothing is appended or posted; the input is cleared exactly
when a non-empty message is sent. -/
theorem claim_C9 (uid : Option String) (s : V1State) :
    (jsTrim s.input = "" → handleSendMessage uid s = s) ∧
    (jsTrim s.input ≠ "" →
      (handleSendMessage uid s).input = "" ∧
      (handleSendMessage uid s).chat = s.chat ++ [(jsTrim s.input, "user")] ∧
      (handleSendMessage uid s).posted = s.posted ++
        [{ sender := userV1 uid, type := "message", text := jsTrim s.input }]) := by
  constructor
  · intro h
    simp [handleSendMessage, h]
  · intro h
    refine ⟨?_, ?_, ?_⟩ <;> simp [handleSendMessage, appendMessage, h]

/-- Witness for C9 at a whitespace-only and at a non-empty input. -/
theorem claim_C9_witness :
    handleSendMessage (some "u") ⟨[("a", "user")], "   ", [], []⟩ =
      ⟨[("a", "user")], "   ", [], []⟩ ∧
    (handleSendMessage (some "u") ⟨[], "hey", [], []⟩).input = "" := by
  exact ⟨(claim_C9 (some "u") ⟨[("a", "user")], "   ", [], []⟩).1 (by decide),
    ((claim_C9 (some "u") ⟨[], "hey", [], []⟩).2 (by decide)).1⟩

/-- C10: the chat log is append-only: `appendMessage`, the custom store's
`insert`, `renderAssistantMessage` and `onMessageEntered` each add exactly one
message at the end, leaving every previously stored message in place, and
`load` returns the stored messages unchanged. -/
theorem claim_C10 (s1 : V1State) (s2 : V2State) (store : List Msg)
    (t c text : String) (m : Msg) :
    (appendMessage t c s1).chat = s1.chat ++ [(t, c)] ∧
    (appendMessage t c s1).chat.take s1.chat.length = s1.chat ∧
    (appendMessage t c s1).chat.length = s1.chat.length + 1 ∧
    customStoreInsert store m = store ++ [m] ∧
    (customStoreInsert store m).take store.length = store ∧
    (customStoreInsert store m).length = store.length + 1 ∧
    customStoreLoad store = store ∧
    (renderAssistantMessage text s2).store =
      s2.store ++ [{ author := assistant, text := text }] ∧
    (renderAssistantMessage text s2).store.take s2.store.length = s2.store ∧
    (onMessageEntered text s2).store = s2.store ++ [{ author := user, text := text }] ∧
    (onMessageEntered text s2).store.take s2.store.length = s2.store := by
  refine ⟨rfl, ?_, ?_, rfl, ?_, ?_, rfl, rfl, ?_, rfl, ?_⟩ <;>
    simp [appendMessage, customStoreInsert, renderAssistantMessage, onMessageEntered,
      postMessage, toggleDisabledState, List.take_left]

end ChatApp
